import Mathlib

/-!
Shallow embedding of the `fadroma-generic-factory` module (`src/lib.rs`).

The module state is made explicit: the Access/Operational Gate state
(admin identity and operational flag), the single Configuration Store
slot holding the current `ContractCode`, and the Instance Registry as an
insertion-ordered association list from canonical address to `Instance`.
External collaborators (address canonicalization/humanization and reply
payload deserialization) are passed in as an `Api` record of fallible
functions. Fallible Rust code returning `StdResult` becomes `Except Err`.
-/

namespace GenericFactory

/-- Error kinds surfaced by the module. The fadroma collaborators produce
`StdError` values; here each distinct failure condition named by the code
or its collaborators gets its own constructor. -/
inductive Err where
  | Unauthorized
  | NotOperational
  | NotConfigured
  | UnexpectedToken
  | MalformedCompletion
  | DeserializationError
  | DuplicateKey
  | InvalidAddress
  | Generic (msg : String)
deriving Repr, DecidableEq

/-- `pub const REPLY_ID: u64 = 78024480;` -/
def REPLY_ID : Nat := 78024480

/-- `pub const INSTANCE_ADDR_ATTR: &str = "fadroma_instance_address";` -/
def INSTANCE_ADDR_ATTR : String := "fadroma_instance_address"

/-- fadroma `ContractCode`: numeric code id plus content hash. -/
structure ContractCode where
  id : Nat
  code_hash : String
deriving Repr, DecidableEq

/-- fadroma `ContractLink<A>`: an address plus the content hash. -/
structure ContractLink (A : Type) where
  address : A
  code_hash : String
deriving Repr, DecidableEq

/-- `Instance<A, EXTRA>` from `src/lib.rs`. -/
structure Instance (A EXTRA : Type) where
  contract : ContractLink A
  extra : EXTRA
deriving Repr, DecidableEq

/-- cosmwasm `Coin`. -/
structure Coin where
  denom : String
  amount : Nat
deriving Repr, DecidableEq

/-- `InstanceConfig<MSG>` from `src/lib.rs`. -/
structure InstanceConfig (MSG : Type) where
  msg : MSG
  funds : List Coin
deriving Repr, DecidableEq

/-- `Pagination { start: u64, limit: u8 }`. `Nat` models both integer
widths; the clamp below keeps every value in the `u8` range relevant. -/
structure Pagination where
  start : Nat
  limit : Nat
deriving Repr, DecidableEq

/-- `Pagination::MAX_LIMIT = 30`. -/
def Pagination.MAX_LIMIT : Nat := 30

/-- `PaginatedResponse<T>` from `src/lib.rs`. -/
structure PaginatedResponse (T : Type) where
  entries : List T
  total : Nat
deriving Repr, DecidableEq

/-- `InstantiateReplyData<EXTRA>`: the payload a child instance returns
in the reply data. -/
structure InstantiateReplyData (EXTRA : Type) where
  address : String
  extra : EXTRA
deriving Repr, DecidableEq

/-- `InstantiateMsg` from `src/lib.rs`. -/
structure InstantiateMsg where
  admin : Option String
  code : ContractCode
deriving Repr, DecidableEq

/-- cosmwasm `WasmMsg::Instantiate`. The `msg` payload is kept at type
`MSG`; its binary serialization (`to_binary`) is a host concern. -/
structure WasmInstantiate (MSG : Type) where
  code_id : Nat
  code_hash : String
  msg : MSG
  funds : List Coin
  label : String
deriving Repr, DecidableEq

/-- The reply-trigger mode of a cosmwasm submessage. -/
inductive ReplyOn where
  | success
  | always
  | error
  | never
deriving Repr, DecidableEq

/-- cosmwasm `SubMsg`, restricted to the one message kind the factory
emits. -/
structure SubMsg (MSG : Type) where
  id : Nat
  msg : WasmInstantiate MSG
  reply_on : ReplyOn
deriving Repr, DecidableEq

/-- `SubMsg::reply_on_success(msg, id)`. -/
def SubMsg.reply_on_success (msg : WasmInstantiate MSG) (id : Nat) : SubMsg MSG :=
  { id := id, msg := msg, reply_on := .success }

/-- cosmwasm `Response`: submessages plus plaintext attributes. -/
structure Response (MSG : Type) where
  messages : List (SubMsg MSG)
  attributes : List (String × String)
deriving Repr, DecidableEq

/-- `Response::default()`. -/
def Response.default : Response MSG :=
  { messages := [], attributes := [] }

/-- `Response::add_submessage`. -/
def Response.add_submessage (r : Response MSG) (m : SubMsg MSG) : Response MSG :=
  { r with messages := r.messages ++ [m] }

/-- `Response::add_attribute_plaintext`. -/
def Response.add_attribute_plaintext (r : Response MSG) (k v : String) : Response MSG :=
  { r with attributes := r.attributes ++ [(k, v)] }

/-- cosmwasm `SubMsgResponse`: the optional binary data of a successful
submessage; binary payloads are modelled as `String`. -/
structure SubMsgResponse where
  data : Option String
deriving Repr, DecidableEq

/-- cosmwasm `SubMsgResult`. -/
inductive SubMsgResult where
  | ok (resp : SubMsgResponse)
  | err (msg : String)
deriving Repr, DecidableEq

/-- cosmwasm `Reply`: correlation id plus result. -/
structure Reply where
  id : Nat
  result : SubMsgResult
deriving Repr, DecidableEq

/-- The part of cosmwasm `Env` the factory reads:
`env.block.time.seconds()`. -/
structure Env where
  time_seconds : Nat
deriving Repr, DecidableEq

/-- cosmwasm `MessageInfo`: the sender identity. -/
structure MessageInfo where
  sender : String
deriving Repr, DecidableEq

/-- Modelled from the spec: state of the external Access Gate (admin
identity) and Operational Gate (global suspend flag); both are external
collaborators whose storage is namespaced apart from the factory's. -/
structure GateState where
  admin : String
  operational : Bool
deriving Repr, DecidableEq

/-- Full module state: gate state, the single Configuration Store slot,
and the Instance Registry as an insertion-ordered association list
keyed by canonical address. -/
structure FactoryState (EXTRA : Type) where
  gates : GateState
  contract : Option ContractCode
  instances : List (String × Instance String EXTRA)
deriving Repr, DecidableEq

/-- External collaborators: address translation and reply payload
deserialization. Each may fail on malformed input. -/
structure Api (EXTRA : Type) where
  canonize : String → Except Err String
  humanize : String → Except Err String
  decodeReply : String → Except Err (InstantiateReplyData EXTRA)

/-- Modelled from the spec: `killswitch::assert_is_operational` of the
external Operational Gate fails with `NotOperational` when global
operations are suspended. -/
def assert_is_operational (g : GateState) : Except Err Unit :=
  if g.operational then .ok () else .error .NotOperational

/-- Modelled from the spec: `admin::assert` of the external Access Gate
fails with `Unauthorized` unless the caller is the admin. -/
def admin_assert (g : GateState) (sender : String) : Except Err Unit :=
  if sender = g.admin then .ok () else .error .Unauthorized

/-- Modelled from the spec: the Access Gate supports ownership transfer
(`admin::DefaultImpl::change_admin`), a privileged operation on gate
state only. -/
def change_admin (g : GateState) (sender newAdmin : String) : Except Err GateState :=
  match admin_assert g sender with
  | .error e => .error e
  | .ok _ => .ok { g with admin := newAdmin }

/-- Modelled from the spec: the Operational Gate's own control surface
(`killswitch::DefaultImpl::set_status`), a privileged operation on gate
state only. -/
def set_status (g : GateState) (sender : String) (status : Bool) : Except Err GateState :=
  match admin_assert g sender with
  | .error e => .error e
  | .ok _ => .ok { g with operational := status }

/-- Modelled from the spec: `get` of the external Instance Registry
(`InsertOnlyMap`): first-match lookup by key. -/
def lookupInst (m : List (String × Instance String EXTRA)) (k : String) :
    Option (Instance String EXTRA) :=
  match m with
  | [] => none
  | (k₀, v) :: rest => if k₀ = k then some v else lookupInst rest k

/-- Modelled from the spec: `insert` of the external Instance Registry
(`InsertOnlyMap`) fails with `DuplicateKey` when the key already exists
and otherwise appends the record in insertion order. -/
def insertOnly (m : List (String × Instance String EXTRA)) (k : String)
    (v : Instance String EXTRA) : Except Err (List (String × Instance String EXTRA)) :=
  if (lookupInst m k).isSome then .error .DuplicateKey
  else .ok (m ++ [(k, v)])

/-- `CONTRACT.load_or_error`: fails when the Configuration Store slot
was never written. -/
def load_or_error (c : Option ContractCode) : Except Err ContractCode :=
  match c with
  | some code => .ok code
  | none => .error .NotConfigured

/-- The generated child label:
`format!("Fadroma factory child instance created at: {}", env.block.time.seconds())`. -/
def creationLabel (env : Env) : String :=
  "Fadroma factory child instance created at: " ++ toString env.time_seconds

/-- `ExecuteMsg<MSG>` from `src/lib.rs`; the admin and killswitch
sub-messages carry the one variant each that the factory dispatches. -/
inductive ExecuteMsg (MSG : Type) where
  | CreateInstance (config : InstanceConfig MSG)
  | ChangeContractCode (code : ContractCode)
  | Admin (newAdmin : String)
  | Killswitch (status : Bool)
deriving Repr, DecidableEq

/-- `matches!(msg, ExecuteMsg::Killswitch(_))`. -/
def isKillswitchMsg : ExecuteMsg MSG → Bool
  | .Killswitch _ => true
  | _ => false

/-- `GenericFactory::create_instance` (`src/lib.rs:255`): optional
admin check (compile-time `AUTH` toggle), load the template, emit one
`reply_on_success` spawn submessage tagged `REPLY_ID`. -/
def create_instance (AUTH : Bool) (st : FactoryState EXTRA) (env : Env)
    (info : MessageInfo) (config : InstanceConfig MSG) :
    Except Err (FactoryState EXTRA × Response MSG) :=
  match (if AUTH then admin_assert st.gates info.sender else .ok ()) with
  | .error e => .error e
  | .ok _ =>
    match load_or_error st.contract with
    | .error e => .error e
    | .ok contract =>
      let msg := SubMsg.reply_on_success
        { code_id := contract.id
          code_hash := contract.code_hash
          msg := config.msg
          funds := config.funds
          label := creationLabel env }
        REPLY_ID
      .ok (st, Response.default.add_submessage msg)

/-- `GenericFactory::change_contract_code` (`src/lib.rs:285`): requires
admin unconditionally (`#[admin::require_admin]`), then overwrites the
Configuration Store slot. -/
def change_contract_code (st : FactoryState EXTRA) (info : MessageInfo)
    (code : ContractCode) : Except Err (FactoryState EXTRA × Response MSG) :=
  match admin_assert st.gates info.sender with
  | .error e => .error e
  | .ok _ => .ok ({ st with contract := some code }, Response.default)

/-- `GenericFactory::execute` (`src/lib.rs:125`): assert operational
for every message except killswitch ones, then dispatch. -/
def execute (AUTH : Bool) (st : FactoryState EXTRA) (env : Env)
    (info : MessageInfo) (msg : ExecuteMsg MSG) :
    Except Err (FactoryState EXTRA × Response MSG) :=
  match (if isKillswitchMsg msg then .ok () else assert_is_operational st.gates) with
  | .error e => .error e
  | .ok _ =>
    match msg with
    | .CreateInstance config => create_instance AUTH st env info config
    | .ChangeContractCode code => change_contract_code st info code
    | .Admin newAdmin =>
      match change_admin st.gates info.sender newAdmin with
      | .error e => .error e
      | .ok gates => .ok ({ st with gates := gates }, Response.default)
    | .Killswitch status =>
      match set_status st.gates info.sender status with
      | .error e => .error e
      | .ok gates => .ok ({ st with gates := gates }, Response.default)

/-- `GenericFactory::handle_reply` (`src/lib.rs:224`): require data,
decode it, re-load the template, canonicalize the child address, use it
both as key and record identity, insert. -/
def handle_reply (api : Api EXTRA) (st : FactoryState EXTRA) (resp : SubMsgResponse) :
    Except Err (FactoryState EXTRA × String) :=
  match resp.data with
  | none => .error .MalformedCompletion
  | some bin =>
    match api.decodeReply bin with
    | .error e => .error e
    | .ok data =>
      match load_or_error st.contract with
      | .error e => .error e
      | .ok contract =>
        match api.canonize data.address with
        | .error e => .error e
        | .ok address =>
          match insertOnly st.instances address
            { contract := { address := address, code_hash := contract.code_hash }
              extra := data.extra } with
          | .error e => .error e
          | .ok instances => .ok ({ st with instances := instances }, data.address)

/-- `GenericFactory::reply` (`src/lib.rs:197`): reject a foreign
correlation id; on a failed result return the default response and
leave state untouched; on success register and attach the instance
address attribute. -/
def reply (api : Api EXTRA) (st : FactoryState EXTRA) (r : Reply) :
    Except Err (FactoryState EXTRA × Response MSG) :=
  if r.id ≠ REPLY_ID then .error .UnexpectedToken
  else
    match r.result with
    | .ok resp =>
      match handle_reply api st resp with
      | .error e => .error e
      | .ok (st₁, addr) =>
        .ok (st₁, Response.default.add_attribute_plaintext INSTANCE_ADDR_ATTR addr)
    | .err _ => .ok (st, Response.default)

/-- Humanize one registry record (`instance.contract.humanize(deps.api)`). -/
def humanizeInstance (api : Api EXTRA) (inst : Instance String EXTRA) :
    Except Err (Instance String EXTRA) :=
  match api.humanize inst.contract.address with
  | .error e => .error e
  | .ok addr =>
    .ok { contract := { address := addr, code_hash := inst.contract.code_hash }
          extra := inst.extra }

/-- The collection loop of `list_instances`: humanize every record,
aborting on the first failure. -/
def humanizeAll (api : Api EXTRA) :
    List (Instance String EXTRA) → Except Err (List (Instance String EXTRA))
  | [] => .ok []
  | x :: xs =>
    match humanizeInstance api x with
    | .error e => .error e
    | .ok y =>
      match humanizeAll api xs with
      | .error e => .error e
      | .ok ys => .ok (y :: ys)

/-- `GenericFactory::list_instances` (`src/lib.rs:296`): clamp the
limit, take the total before slicing, then humanize the
`skip(start).take(limit)` slice of the values in insertion order. -/
def list_instances (api : Api EXTRA) (st : FactoryState EXTRA) (p : Pagination) :
    Except Err (PaginatedResponse (Instance String EXTRA)) :=
  let limit := min p.limit Pagination.MAX_LIMIT
  let values := st.instances.map Prod.snd
  let total := values.length
  let slice := (values.drop p.start).take limit
  match humanizeAll api slice with
  | .error e => .error e
  | .ok entries => .ok { entries := entries, total := total }

/-- `GenericFactory::instance_by_addr` (`src/lib.rs:325`): canonicalize
the query address, look up, humanize when found. -/
def instance_by_addr (api : Api EXTRA) (st : FactoryState EXTRA) (addr : String) :
    Except Err (Option (Instance String EXTRA)) :=
  match api.canonize addr with
  | .error e => .error e
  | .ok caddr =>
    match lookupInst st.instances caddr with
    | none => .ok none
    | some inst =>
      match humanizeInstance api inst with
      | .error e => .error e
      | .ok h => .ok (some h)

/-- Modelled from the spec: `admin::init` stores the given admin or
defaults to the instantiator; the module starts operational. -/
def admin_init (admin : Option String) (info : MessageInfo) : GateState :=
  { admin := admin.getD info.sender, operational := true }

/-- `GenericFactory::instantiate` (`src/lib.rs:113`): initialize the
Access Gate and save the initial template. -/
def instantiate (info : MessageInfo) (msg : InstantiateMsg) :
    FactoryState EXTRA × Response MSG :=
  ({ gates := admin_init msg.admin info
     contract := some msg.code
     instances := [] },
   Response.default)

/-- Pure form of a total humanization routine, used to state what the
query surface returns when the address translator succeeds. -/
def humApply (hum : String → String) (inst : Instance String EXTRA) :
    Instance String EXTRA :=
  { contract := { address := hum inst.contract.address
                  code_hash := inst.contract.code_hash }
    extra := inst.extra }

/-- Concrete address translator for evaluation: canonical form prefixes
`c:`, human form prefixes `h:`, the literal `bad` is malformed, and the
only well-formed reply payload is the blob decoding to child address
`child`. -/
def wApi : Api Unit :=
  { canonize := fun s => if s = "bad" then .error .InvalidAddress else .ok ("c:" ++ s)
    humanize := fun s => .ok ("h:" ++ s)
    decodeReply := fun b =>
      if b = "blob" then .ok { address := "child", extra := () }
      else .error .DeserializationError }

/-- Concrete gate state for evaluation. -/
def wGates : GateState := { admin := "admin", operational := true }

/-- Concrete template for evaluation. -/
def wCode : ContractCode := { id := 1, code_hash := "hash1" }

/-- A second concrete template, used for template replacement. -/
def wCode2 : ContractCode := { id := 2, code_hash := "hash2" }

/-- Concrete registry record for evaluation. -/
def wInst : Instance String Unit :=
  { contract := { address := "c:child", code_hash := "hash1" }, extra := () }

/-- Concrete module state with an empty registry. -/
def wState : FactoryState Unit :=
  { gates := wGates, contract := some wCode, instances := [] }

/-- Concrete module state with one registered instance. -/
def wStateOne : FactoryState Unit :=
  { gates := wGates, contract := some wCode, instances := [("c:child", wInst)] }

/-- Concrete module state with operations suspended. -/
def wStateSus : FactoryState Unit :=
  { gates := { admin := "admin", operational := false }
    contract := some wCode
    instances := [] }

/-- Concrete creation config for evaluation. -/
def wConfig : InstanceConfig Unit := { msg := (), funds := [] }

/-- Concrete block environment for evaluation. -/
def wEnv : Env := { time_seconds := 5 }

/-- Every registry record is keyed by the canonical address stored in
its own `contract.address` field. -/
def KeyedBySelf (st : FactoryState EXTRA) : Prop :=
  ∀ kv ∈ st.instances, kv.2.contract.address = kv.1

/-- Helper: a successful `create_instance` leaves the module state
untouched (it only attaches a submessage). -/
theorem create_instance_ok_frame {EXTRA MSG : Type} {AUTH : Bool}
    {st st₁ : FactoryState EXTRA} {env : Env} {info : MessageInfo}
    {config : InstanceConfig MSG} {r : Response MSG}
    (h : create_instance AUTH st env info config = .ok (st₁, r)) : st₁ = st := by
  unfold create_instance at h
  split at h
  · cases h
  · split at h
    · cases h
    · simp only [Except.ok.injEq, Prod.mk.injEq] at h
      exact h.1.symm

/-- Helper: a successful `change_contract_code` requires the admin and
only replaces the Configuration Store slot. -/
theorem change_contract_code_ok {EXTRA MSG : Type} {st st₁ : FactoryState EXTRA}
    {info : MessageInfo} {code : ContractCode} {r : Response MSG}
    (h : change_contract_code st info code = .ok (st₁, r)) :
    info.sender = st.gates.admin ∧ st₁ = { st with contract := some code } ∧
      r = Response.default := by
  unfold change_contract_code admin_assert at h
  split at h
  · rename_i heq
    split at heq
    · cases heq
    · cases h
  · rename_i heq
    constructor
    · split at heq
      · assumption
      · cases heq
    · simp only [Except.ok.injEq, Prod.mk.injEq] at h
      exact ⟨h.1.symm, h.2.symm⟩

/-- Helper: every successful `execute` leaves the Instance Registry
exactly as it was. -/
theorem execute_ok_instances {EXTRA MSG : Type} {AUTH : Bool}
    {st st₁ : FactoryState EXTRA} {env : Env} {info : MessageInfo}
    {msg : ExecuteMsg MSG} {r : Response MSG}
    (h : execute AUTH st env info msg = .ok (st₁, r)) :
    st₁.instances = st.instances := by
  unfold execute at h
  split at h
  · cases h
  · cases msg with
    | CreateInstance config =>
      simp only at h
      rw [create_instance_ok_frame h]
    | ChangeContractCode code =>
      simp only at h
      rw [(change_contract_code_ok h).2.1]
    | Admin newAdmin =>
      simp only at h
      split at h
      · cases h
      · simp only [Except.ok.injEq, Prod.mk.injEq] at h
        rw [← h.1]
    | Killswitch status =>
      simp only at h
      split at h
      · cases h
      · simp only [Except.ok.injEq, Prod.mk.injEq] at h
        rw [← h.1]

/-- Helper: full shape of a successful `handle_reply`: the payload was
present and decoded, the template was configured, the child address
canonicalized to a fresh key, and exactly the one matching record was
appended under that key. -/
theorem handle_reply_ok_shape {EXTRA : Type} {api : Api EXTRA}
    {st st₁ : FactoryState EXTRA} {resp : SubMsgResponse} {addr : String}
    (h : handle_reply api st resp = .ok (st₁, addr)) :
    ∃ bin d c ca, resp.data = some bin ∧ api.decodeReply bin = .ok d ∧
      st.contract = some c ∧ api.canonize d.address = .ok ca ∧
      lookupInst st.instances ca = none ∧ addr = d.address ∧
      st₁ = { st with instances := st.instances ++
        [(ca, { contract := { address := ca, code_hash := c.code_hash }
                extra := d.extra })] } := by
  unfold handle_reply at h
  split at h
  · cases h
  · rename_i bin hbin
    split at h
    · cases h
    · rename_i d hd
      split at h
      · cases h
      · rename_i c hc
        split at h
        · cases h
        · rename_i ca hca
          split at h
          · cases h
          · rename_i instances hins
            unfold insertOnly at hins
            split at hins
            · cases hins
            · rename_i hdup
              simp only [Except.ok.injEq, Prod.mk.injEq] at h hins
              refine ⟨bin, d, c, ca, hbin, hd, ?_, hca, ?_, h.2.symm, ?_⟩
              · unfold load_or_error at hc
                split at hc
                · rename_i hsome
                  simp only [Except.ok.injEq] at hc
                  rw [hsome, hc]
                · cases hc
              · cases hlook : lookupInst st.instances ca with
                | none => rfl
                | some v => rw [hlook] at hdup; simp at hdup
              · rw [← h.1, ← hins]

/-- Claim C1: a continuation delivered with the well-known correlation
token whose result signals failure is swallowed: the handler returns
success, the whole module state (Instance Registry included) is
unchanged, and the returned default response carries no
instance-address attribute. -/
theorem C1_reply_failure_swallowed (EXTRA MSG : Type) (api : Api EXTRA)
    (st : FactoryState EXTRA) (e : String) :
    (reply api st { id := REPLY_ID, result := .err e } :
        Except Err (FactoryState EXTRA × Response MSG)) =
      .ok (st, Response.default) ∧
    (Response.default : Response MSG).attributes = [] := by
  constructor
  · simp [reply]
  · rfl

/-- Claim C2 counterexample: with global operations suspended, the
`AUTH`-enabled factory rejects a `CreateInstance` from a non-admin
caller with `NotOperational`, not `Unauthorized`: the Operational Gate
is consulted before the Access Gate. -/
theorem C2_counterexample :
    execute true wStateSus wEnv { sender := "mallory" } (.CreateInstance wConfig) =
      (.error .NotOperational : Except Err (FactoryState Unit × Response Unit)) ∧
    execute true wStateSus wEnv { sender := "mallory" } (.CreateInstance wConfig) ≠
      (.error .Unauthorized : Except Err (FactoryState Unit × Response Unit)) := by
  have h₁ : execute true wStateSus wEnv { sender := "mallory" } (.CreateInstance wConfig) =
      (.error .NotOperational : Except Err (FactoryState Unit × Response Unit)) := rfl
  refine ⟨h₁, ?_⟩
  rw [h₁]
  intro hcontra
  injection hcontra with h
  cases h

/-- Claim C2 amended: when a `CreateInstance` comes from a caller
lacking permission (authorization toggle enabled) while global
operations are suspended, the invocation fails with `NotOperational`:
the Operational Gate is consulted (in the `execute` dispatcher) before
the Access Gate. -/
theorem C2_operational_gate_first (EXTRA MSG : Type) (st : FactoryState EXTRA)
    (env : Env) (info : MessageInfo) (config : InstanceConfig MSG)
    (hsus : st.gates.operational = false)
    (hauth : info.sender ≠ st.gates.admin) :
    execute true st env info (.CreateInstance config) = .error .NotOperational := by
  unfold execute assert_is_operational isKillswitchMsg
  rw [hsus]
  rfl

/-- Claim C2 amended, witness at a concrete suspended state and
non-admin caller. -/
theorem C2_operational_gate_first_witness :
    execute true wStateSus wEnv { sender := "mallory" } (.CreateInstance wConfig) =
      (.error .NotOperational : Except Err (FactoryState Unit × Response Unit)) :=
  C2_operational_gate_first Unit Unit wStateSus wEnv { sender := "mallory" } wConfig
    rfl (by decide)

/-- Claim C3: the record registered by the reply handler carries the
`content_hash` of the template stored at registration time: after an
admin `ChangeContractCode` replaces the template (between spawn and
completion), the handler re-loads the store and registers the new
template's hash. -/
theorem C3_hash_at_registration_time (EXTRA MSG : Type) (api : Api EXTRA)
    (st st₁ : FactoryState EXTRA) (info : MessageInfo) (newCode : ContractCode)
    (r : Response MSG) (bin : String) (d : InstantiateReplyData EXTRA) (ca : String)
    (hchg : change_contract_code st info newCode = .ok (st₁, r))
    (hdec : api.decodeReply bin = .ok d)
    (hca : api.canonize d.address = .ok ca)
    (hfresh : lookupInst st.instances ca = none) :
    handle_reply api st₁ { data := some bin } =
      .ok ({ st₁ with instances := st₁.instances ++
              [(ca, { contract := { address := ca, code_hash := newCode.code_hash }
                      extra := d.extra })] }, d.address) := by
  obtain ⟨-, hst₁, -⟩ := change_contract_code_ok hchg
  subst hst₁
  unfold handle_reply load_or_error insertOnly
  simp only [hdec, hca, hfresh]
  rfl

/-- Claim C3, witness: replacing template `hash1` by `hash2` and then
processing the completion registers a record with `hash2`. -/
theorem C3_hash_at_registration_time_witness :
    handle_reply wApi { wState with contract := some wCode2 } { data := some "blob" } =
      .ok ({ wState with contract := some wCode2, instances :=
              [("c:child", { contract := { address := "c:child", code_hash := "hash2" }
                             extra := () })] }, "child") :=
  C3_hash_at_registration_time Unit Unit wApi wState
    { wState with contract := some wCode2 } { sender := "admin" } wCode2
    Response.default "blob" { address := "child", extra := () } "c:child"
    rfl rfl rfl rfl

/-- Helper: when the address translator succeeds everywhere (acting as
the pure function `hum`), humanizing a list of records succeeds and
maps `humApply hum` over it. -/
theorem humanizeAll_ok {EXTRA : Type} (api : Api EXTRA) (hum : String → String)
    (H : ∀ a, api.humanize a = .ok (hum a)) (l : List (Instance String EXTRA)) :
    humanizeAll api l = .ok (l.map (humApply hum)) := by
  induction l with
  | nil => rfl
  | cons x xs ih => simp [humanizeAll, humanizeInstance, H, ih, humApply]

/-- Claim C4: for every registry state and pagination, `ListInstances`
returns `total` equal to the registry's record count and `entries`
equal to the insertion-ordered slice starting at `start` of length
at most `min limit 30`, each record humanized; `start` at or beyond
`total` yields empty `entries` with the same correct `total`; and any
`limit` behaves identically to the clamped `min limit 30`. -/
theorem C4_list_instances_pagination (EXTRA : Type) (api : Api EXTRA)
    (hum : String → String) (H : ∀ a, api.humanize a = .ok (hum a))
    (st : FactoryState EXTRA) (p : Pagination) :
    list_instances api st p =
      .ok { entries := (((st.instances.map Prod.snd).drop p.start).take
              (min p.limit 30)).map (humApply hum)
            total := st.instances.length } ∧
    (st.instances.length ≤ p.start →
      (((st.instances.map Prod.snd).drop p.start).take
          (min p.limit 30)).map (humApply hum) = []) ∧
    ((((st.instances.map Prod.snd).drop p.start).take
        (min p.limit 30)).map (humApply hum)).length ≤ min p.limit 30 ∧
    list_instances api st p =
      list_instances api st { start := p.start, limit := min p.limit 30 } := by
  refine ⟨?_, ?_, ?_, ?_⟩
  · simp [list_instances, humanizeAll_ok api hum H, Pagination.MAX_LIMIT]
  · intro hle
    rw [List.drop_eq_nil_of_le (by simpa using hle)]
    simp
  · simp
  · simp [list_instances, Pagination.MAX_LIMIT, Nat.min_assoc]

/-- Claim C4, witness at a one-record registry with an oversized
limit. -/
theorem C4_list_instances_pagination_witness :
    list_instances wApi wStateOne { start := 0, limit := 100 } =
      .ok { entries := [{ contract := { address := "h:c:child", code_hash := "hash1" }
                          extra := () }]
            total := 1 } := by
  have h := (C4_list_instances_pagination Unit wApi (fun a => "h:" ++ a)
    (fun a => rfl) wStateOne { start := 0, limit := 100 }).1
  simpa [wStateOne, wInst, humApply] using h

/-- Claim C5: the Instance Registry is append-only: no successful
`execute` touches it at all, a successful `reply` at most appends one
record, and the completion-time insertion fails with `DuplicateKey`
when a record already exists under the same canonical address (the
invocation then aborts, so the registry is unchanged). -/
theorem C5_registry_append_only (EXTRA MSG : Type) :
    (∀ (AUTH : Bool) (st st₁ : FactoryState EXTRA) (env : Env)
       (info : MessageInfo) (msg : ExecuteMsg MSG) (r : Response MSG),
       execute AUTH st env info msg = .ok (st₁, r) →
         st₁.instances = st.instances) ∧
    (∀ (api : Api EXTRA) (st st₁ : FactoryState EXTRA) (rp : Reply)
       (r : Response MSG),
       reply api st rp = .ok (st₁, r) →
         st₁.instances = st.instances ∨
           ∃ kv, st₁.instances = st.instances ++ [kv]) ∧
    (∀ (api : Api EXTRA) (st : FactoryState EXTRA) (bin : String)
       (d : InstantiateReplyData EXTRA) (c : ContractCode) (ca : String),
       api.decodeReply bin = .ok d → st.contract = some c →
       api.canonize d.address = .ok ca →
       (lookupInst st.instances ca).isSome = true →
       handle_reply api st { data := some bin } = .error .DuplicateKey) := by
  refine ⟨?_, ?_, ?_⟩
  · intro AUTH st st₁ env info msg r h
    exact execute_ok_instances h
  · intro api st st₁ rp r h
    unfold reply at h
    split at h
    · cases h
    · split at h
      · rename_i resp heq
        split at h
        · cases h
        · rename_i st₂ addr hp
          simp only [Except.ok.injEq, Prod.mk.injEq] at h
          obtain ⟨bin, d, c, ca, -, -, -, -, -, -, hshape⟩ :=
            handle_reply_ok_shape hp
          right
          exact ⟨_, by rw [← h.1, hshape]⟩
      · simp only [Except.ok.injEq, Prod.mk.injEq] at h
        left
        rw [← h.1]
  · intro api st bin d c ca hdec hc hca hdup
    unfold handle_reply load_or_error insertOnly
    rw [hc]
    simp [hdec, hca, hdup]

/-- Claim C5, witness: a completion whose child address is already
registered fails with `DuplicateKey`. -/
theorem C5_registry_append_only_witness :
    handle_reply wApi wStateOne { data := some "blob" } = .error .DuplicateKey :=
  (C5_registry_append_only Unit Unit).2.2 wApi wStateOne "blob"
    { address := "child", extra := () } wCode "c:child" rfl rfl rfl rfl

/-- Claim C6: a successful `CreateInstance` leaves the state untouched
and attaches exactly one spawn submessage, carrying the stored
template's numeric id and content hash, the caller-supplied payload and
funds, the generated label embedding the block timestamp, triggered
on success only, and tagged with the shared correlation token
`REPLY_ID`. -/
theorem C6_single_spawn_submessage (EXTRA MSG : Type) (AUTH : Bool)
    (st : FactoryState EXTRA) (env : Env) (info : MessageInfo)
    (config : InstanceConfig MSG) (c : ContractCode)
    (hauth : AUTH = true → info.sender = st.gates.admin)
    (hc : st.contract = some c) :
    create_instance AUTH st env info config =
      .ok (st, { messages := [{ id := REPLY_ID
                                msg := { code_id := c.id
                                         code_hash := c.code_hash
                                         msg := config.msg
                                         funds := config.funds
                                         label := creationLabel env }
                                reply_on := .success }]
                 attributes := [] }) ∧
    creationLabel env =
      "Fadroma factory child instance created at: " ++ toString env.time_seconds := by
  refine ⟨?_, rfl⟩
  unfold create_instance load_or_error
  rw [hc]
  cases AUTH with
  | false =>
    simp [Response.default, Response.add_submessage, SubMsg.reply_on_success]
  | true =>
    rw [if_pos rfl]
    unfold admin_assert
    rw [if_pos (hauth rfl)]
    simp [Response.default, Response.add_submessage, SubMsg.reply_on_success]

/-- Claim C6, witness at a concrete admin-sent creation. -/
theorem C6_single_spawn_submessage_witness :
    create_instance true wState wEnv { sender := "admin" } wConfig =
      .ok (wState, { messages := [{ id := REPLY_ID
                                    msg := { code_id := wCode.id
                                             code_hash := wCode.code_hash
                                             msg := wConfig.msg
                                             funds := wConfig.funds
                                             label := creationLabel wEnv }
                                    reply_on := .success }]
                     attributes := [] }) :=
  (C6_single_spawn_submessage Unit Unit true wState wEnv { sender := "admin" }
    wConfig wCode (fun _ => rfl) rfl).1

/-- Claim C7: `InstanceByAddr` propagates the canonicalization failure
on a malformed address; on any address that canonicalizes it succeeds
structurally, with `none` when no record is keyed by the canonical
form and otherwise the stored record with its identity humanized. -/
theorem C7_instance_by_addr_lookup (EXTRA : Type) (api : Api EXTRA)
    (st : FactoryState EXTRA) (addr : String) :
    (∀ e, api.canonize addr = .error e →
      instance_by_addr api st addr = .error e) ∧
    (∀ ca, api.canonize addr = .ok ca → lookupInst st.instances ca = none →
      instance_by_addr api st addr = .ok none) ∧
    (∀ ca inst h, api.canonize addr = .ok ca →
      lookupInst st.instances ca = some inst →
      api.humanize inst.contract.address = .ok h →
      instance_by_addr api st addr =
        .ok (some { contract := { address := h
                                  code_hash := inst.contract.code_hash }
                    extra := inst.extra })) := by
  refine ⟨?_, ?_, ?_⟩
  · intro e he
    simp [instance_by_addr, he]
  · intro ca hca hnone
    simp [instance_by_addr, hca, hnone]
  · intro ca inst h hca hsome hh
    simp [instance_by_addr, hca, hsome, humanizeInstance, hh]

/-- Claim C7, witness: the malformed literal fails with
`InvalidAddress`, and a never-registered valid address yields `none`. -/
theorem C7_instance_by_addr_lookup_witness :
    instance_by_addr wApi wStateOne "bad" = .error .InvalidAddress ∧
    instance_by_addr wApi wStateOne "ghost" = .ok none :=
  ⟨(C7_instance_by_addr_lookup Unit wApi wStateOne "bad").1 .InvalidAddress rfl,
   (C7_instance_by_addr_lookup Unit wApi wStateOne "ghost").2.1 "c:ghost" rfl rfl⟩

/-- Claim C8: with the build-time toggle enabled, `CreateInstance` from
any non-admin caller fails with `Unauthorized`; with the toggle
disabled the check is skipped and the same invocation succeeds for any
caller once the module is operational and configured. -/
theorem C8_auth_toggle (EXTRA MSG : Type) (st : FactoryState EXTRA) (env : Env)
    (info : MessageInfo) (config : InstanceConfig MSG) (c : ContractCode)
    (hop : st.gates.operational = true) (hc : st.contract = some c) :
    (info.sender ≠ st.gates.admin →
      execute true st env info (.CreateInstance config) =
        .error .Unauthorized) ∧
    execute false st env info (.CreateInstance config) =
      .ok (st, Response.default.add_submessage (SubMsg.reply_on_success
        { code_id := c.id
          code_hash := c.code_hash
          msg := config.msg
          funds := config.funds
          label := creationLabel env } REPLY_ID)) := by
  constructor
  · intro hns
    unfold execute isKillswitchMsg assert_is_operational
    rw [hop]
    simp only [if_pos rfl]
    unfold create_instance admin_assert
    rw [if_pos rfl, if_neg hns]
    rfl
  · unfold execute isKillswitchMsg assert_is_operational
    rw [hop]
    simp only [if_pos rfl]
    unfold create_instance load_or_error
    rw [hc]
    rfl

/-- Claim C8, witness: a non-admin caller is rejected when the toggle
is on and accepted when it is off. -/
theorem C8_auth_toggle_witness :
    execute true wState wEnv { sender := "mallory" } (.CreateInstance wConfig) =
      (.error .Unauthorized : Except Err (FactoryState Unit × Response Unit)) ∧
    execute false wState wEnv { sender := "mallory" } (.CreateInstance wConfig) =
      .ok (wState, Response.default.add_submessage (SubMsg.reply_on_success
        { code_id := wCode.id
          code_hash := wCode.code_hash
          msg := wConfig.msg
          funds := wConfig.funds
          label := creationLabel wEnv } REPLY_ID)) :=
  ⟨(C8_auth_toggle Unit Unit wState wEnv { sender := "mallory" } wConfig wCode
      rfl rfl).1 (by decide),
   (C8_auth_toggle Unit Unit wState wEnv { sender := "mallory" } wConfig wCode
      rfl rfl).2⟩

/-- Claim C9: `ChangeContractCode` requires the Access Gate's approval
for every value of the build-time toggle `AUTH`; on success it only
overwrites the single Configuration Store slot, leaving every Instance
Registry record (and the gate state) unchanged. -/
theorem C9_change_template_admin_only (EXTRA MSG : Type) (AUTH : Bool)
    (st : FactoryState EXTRA) (env : Env) (info : MessageInfo)
    (code : ContractCode) (hop : st.gates.operational = true) :
    (info.sender ≠ st.gates.admin →
      (execute AUTH st env info (.ChangeContractCode code) :
          Except Err (FactoryState EXTRA × Response MSG)) =
        .error .Unauthorized) ∧
    (info.sender = st.gates.admin →
      (execute AUTH st env info (.ChangeContractCode code) :
          Except Err (FactoryState EXTRA × Response MSG)) =
        .ok ({ st with contract := some code }, Response.default)) ∧
    ({ st with contract := some code } : FactoryState EXTRA).instances =
      st.instances ∧
    ({ st with contract := some code } : FactoryState EXTRA).gates = st.gates := by
  refine ⟨?_, ?_, rfl, rfl⟩
  · intro hns
    unfold execute isKillswitchMsg assert_is_operational
    rw [hop]
    simp only [if_pos rfl]
    unfold change_contract_code admin_assert
    rw [if_neg hns]
    rfl
  · intro hs
    unfold execute isKillswitchMsg assert_is_operational
    rw [hop]
    simp only [if_pos rfl]
    unfold change_contract_code admin_assert
    rw [if_pos hs]
    rfl

/-- Claim C9, witness: rejection for a non-admin and in-place template
replacement for the admin, with both toggle values. -/
theorem C9_change_template_admin_only_witness :
    (execute true wState wEnv { sender := "mallory" } (.ChangeContractCode wCode2) :
        Except Err (FactoryState Unit × Response Unit)) = .error .Unauthorized ∧
    (execute false wState wEnv { sender := "admin" } (.ChangeContractCode wCode2) :
        Except Err (FactoryState Unit × Response Unit)) =
      .ok ({ wState with contract := some wCode2 }, Response.default) :=
  ⟨(C9_change_template_admin_only Unit Unit true wState wEnv
      { sender := "mallory" } wCode2 rfl).1 (by decide),
   (C9_change_template_admin_only Unit Unit false wState wEnv
      { sender := "admin" } wCode2 rfl).2.1 rfl⟩

/-- Claim C10: every operation keeps the invariant that each registry
record is stored under exactly the canonical address contained in its
own `contract.address` field: `instantiate` establishes it, and every
successful `execute` and `reply` preserves it, because the only writer
uses the canonicalized address both as key and as record identity. -/
theorem C10_key_matches_record (EXTRA MSG : Type) :
    (∀ (info : MessageInfo) (msg : InstantiateMsg) (st : FactoryState EXTRA)
       (r : Response MSG),
       instantiate info msg = (st, r) → KeyedBySelf st) ∧
    (∀ (AUTH : Bool) (st st₁ : FactoryState EXTRA) (env : Env)
       (info : MessageInfo) (msg : ExecuteMsg MSG) (r : Response MSG),
       KeyedBySelf st → execute AUTH st env info msg = .ok (st₁, r) →
         KeyedBySelf st₁) ∧
    (∀ (api : Api EXTRA) (st st₁ : FactoryState EXTRA) (rp : Reply)
       (r : Response MSG),
       KeyedBySelf st → reply api st rp = .ok (st₁, r) → KeyedBySelf st₁) := by
  refine ⟨?_, ?_, ?_⟩
  · intro info msg st r h
    unfold instantiate at h
    simp only [Prod.mk.injEq] at h
    intro kv hkv
    rw [← h.1] at hkv
    simp at hkv
  · intro AUTH st st₁ env info msg r hinv h
    intro kv hkv
    rw [execute_ok_instances h] at hkv
    exact hinv kv hkv
  · intro api st st₁ rp r hinv h
    unfold reply at h
    split at h
    · cases h
    · split at h
      · rename_i resp heq
        split at h
        · cases h
        · rename_i st₂ addr hp
          simp only [Except.ok.injEq, Prod.mk.injEq] at h
          obtain ⟨bin, d, c, ca, -, -, -, -, -, -, hshape⟩ :=
            handle_reply_ok_shape hp
          intro kv hkv
          rw [← h.1, hshape] at hkv
          simp only [List.mem_append, List.mem_singleton] at hkv
          cases hkv with
          | inl hmem => exact hinv kv hmem
          | inr hnew => rw [hnew]
      · simp only [Except.ok.injEq, Prod.mk.injEq] at h
        intro kv hkv
        rw [← h.1] at hkv
        exact hinv kv hkv

/-- Claim C10, witness: processing a concrete successful completion
from the empty registry yields a registry where the one key equals the
record's own canonical address. -/
theorem C10_key_matches_record_witness :
    KeyedBySelf ({ wState with instances :=
      [("c:child", { contract := { address := "c:child", code_hash := "hash1" }
                     extra := () })] } : FactoryState Unit) :=
  (C10_key_matches_record Unit Unit).2.2 wApi wState
    ({ wState with instances :=
      [("c:child", { contract := { address := "c:child", code_hash := "hash1" }
                     extra := () })] })
    { id := REPLY_ID, result := .ok { data := some "blob" } }
    (Response.default.add_attribute_plaintext INSTANCE_ADDR_ATTR "child")
    (by simp [KeyedBySelf, wState]) rfl

end GenericFactory
